import Mathlib

/-!
Verification of the relation-resolution and write-strategy layer of the Glue
adapter (`dbt/adapters/glue/impl.py`), shallowly embedded in Lean.

Python dictionaries become association lists, `dict.get` becomes an `Option`
valued lookup, a function that can fall off its `try/except` and return
Python `None` becomes `Option` valued, and the generated Spark scripts are
embedded as lists of structured statements mirroring the exact string
concatenation structure of the source.
-/

namespace DbtGlue

/-- The class attribute `relation_type_map` of `GlueAdapter`, embedded as an
association list mirroring the Python dict literal (`impl.py`, lines 32-38). -/
def relation_type_map : List (String × String) :=
  [("EXTERNAL_TABLE", "table"),
   ("MANAGED_TABLE", "table"),
   ("VIRTUAL_VIEW", "view"),
   ("table", "table"),
   ("view", "view"),
   ("cte", "cte"),
   ("materializedview", "materializedview")]

/-- Python `relation_type_map.get(k)`: `none` when the key is absent, the
mapped value otherwise. -/
def relation_type_map_get (k : String) : Option String :=
  (relation_type_map.find? (fun p => p.1 == k)).map Prod.snd

/-- Python `relation_type_map.get(k)` where the key itself may be missing
(`table.get("TableType")` can return `None`, and `dict.get(None)` is `None`). -/
def relation_type_map_getOpt : Option String → Option String
  | none => none
  | some k => relation_type_map_get k

/-- The recognized keys of `relation_type_map`. -/
def relation_type_keys : List String := relation_type_map.map Prod.fst

/-- Result of one catalog service call: either the payload or a
transport/service error (the message boto3 would raise with). -/
inductive CatalogResp (α : Type) where
  | ok (val : α)
  | err (msg : String)

/-- One entry of a Glue `get_tables` response: the table name and the
optional `TableType` string. -/
structure TableEntry where
  name : String
  tableType : Option String

/-- The adapter's relation value: `Relation.create(database=..., schema=...,
identifier=..., type=...)`.  The `rtype` field is the result of the
`relation_type_map` lookup, `none` when the raw type is unrecognized. -/
structure SparkRelation where
  database : String
  schema : String
  identifier : String
  rtype : Option String
deriving DecidableEq, Repr

/-- `GlueAdapter.list_relations_without_caching` (`impl.py`, lines 91-107):
on a successful `get_tables` call it returns one relation per table, typed via
`relation_type_map.get`; on any exception it logs the error and falls off the
end of the function, i.e. returns Python `None` (embedded as `none`). -/
def list_relations_without_caching (schema : String)
    (resp : CatalogResp (List TableEntry)) : Option (List SparkRelation) :=
  match resp with
  | .ok tables =>
      some (tables.map (fun t =>
        { database := schema
          schema := schema
          identifier := t.name
          rtype := relation_type_map_getOpt t.tableType }))
  | .err _ => none

/-- `GlueAdapter.check_schema_exists` (`impl.py`, lines 109-117): lists the
catalog's databases and tests membership, returning `True` or `False`; on any
exception it logs the error and returns Python `None` (embedded as `none`). -/
def check_schema_exists (resp : CatalogResp (List String)) (schema : String) :
    Option Bool :=
  match resp with
  | .ok dbs => if schema ∈ dbs then some true else some false
  | .err _ => none

/-- One Lake Formation grant entry built by `create_schema`: the principal,
the schema the grant targets, whether it is the table-wildcard entry, and the
permission list ( `"Alter".upper()` etc. evaluate to the strings below). -/
structure GrantEntry where
  principal : String
  resource_schema : String
  table_wildcard : Bool
  permissions : List String
deriving DecidableEq, Repr

/-- Database-level permissions granted by `create_schema`. -/
def database_permissions : List String :=
  ["ALTER", "CREATE_TABLE", "DROP", "DESCRIBE"]

/-- Table-wildcard permissions granted by `create_schema`. -/
def table_permissions : List String :=
  ["SELECT", "INSERT", "DELETE", "DESCRIBE", "ALTER", "DROP"]

/-- The two grant entries `create_schema` appends for the configured role. -/
def grant_entries (role_arn schema : String) : List GrantEntry :=
  [{ principal := role_arn, resource_schema := schema, table_wildcard := false,
     permissions := database_permissions },
   { principal := role_arn, resource_schema := schema, table_wildcard := true,
     permissions := table_permissions }]

/-- The catalog-side state `create_schema` can mutate: the list of databases
(name and `LocationUri`) and the list of Lake Formation grants. -/
structure CatalogState where
  databases : List (String × String)
  grants : List GrantEntry
deriving DecidableEq, Repr

/-- `GlueAdapter.create_schema` (`impl.py`, lines 292-368): when
`check_schema_exists` is truthy the function only logs and mutates nothing;
otherwise it creates the database at `location/schema/` and issues the two
Lake Formation grants.  Python truthiness of the `Option Bool` result is
`(· .getD false)`: only `some true` takes the no-op branch. -/
def create_schema (location role_arn : String) (st : CatalogState)
    (schema : String) : CatalogState :=
  if (check_schema_exists (CatalogResp.ok (st.databases.map Prod.fst))
        schema).getD false then
    st
  else
    { databases := st.databases ++ [(schema, location ++ "/" ++ schema ++ "/")]
      grants := st.grants ++ grant_entries role_arn schema }

/-- A key is recognized by the lookup exactly when it is one of the dict's
keys. -/
theorem relation_type_map_get_isSome (k : String) :
    (relation_type_map_get k).isSome = true ↔ k ∈ relation_type_keys := by
  simp only [relation_type_map_get, relation_type_keys, Option.isSome_map',
    List.find?_isSome, List.mem_map, beq_iff_eq]

/-- C7: the table-type normalization mapping is total: the three provider
enumerations and the passthrough lowercase tokens map into the canonical set,
a value is recognized exactly when it is one of the seven keys, and every
unrecognized value maps to the sentinel (`none`, Python `None`) rather than
raising a lookup error. -/
theorem relation_type_map_total :
    relation_type_map_get "EXTERNAL_TABLE" = some "table" ∧
    relation_type_map_get "MANAGED_TABLE" = some "table" ∧
    relation_type_map_get "VIRTUAL_VIEW" = some "view" ∧
    relation_type_map_get "table" = some "table" ∧
    relation_type_map_get "view" = some "view" ∧
    relation_type_map_get "cte" = some "cte" ∧
    relation_type_map_get "materializedview" = some "materializedview" ∧
    (∀ k, (relation_type_map_get k).isSome = true ↔ k ∈ relation_type_keys) ∧
    (∀ k, k ∉ relation_type_keys → relation_type_map_get k = none) := by
  refine ⟨rfl, rfl, rfl, rfl, rfl, rfl, rfl,
    relation_type_map_get_isSome, ?_⟩
  intro k hk
  have h : ¬ (relation_type_map_get k).isSome = true := by
    intro hs
    exact hk ((relation_type_map_get_isSome k).mp hs)
  exact Option.not_isSome_iff_eq_none.mp (by simpa using h)

/-- Witness for C7: the unrecognized catalog value "GOVERNED" is not a key and
maps to the sentinel `none`. -/
theorem relation_type_map_total_witness :
    "GOVERNED" ∉ relation_type_keys ∧
    relation_type_map_get "GOVERNED" = none :=
  ⟨by decide, (relation_type_map_total).2.2.2.2.2.2.2.2 "GOVERNED" (by decide)⟩

/-- C2: `create_schema` is idempotent — applying it twice yields the same
catalog state as applying it once, and when the schema already exists the
call performs no catalog mutation at all (and, being total, raises nothing). -/
theorem create_schema_idempotent (location role_arn : String)
    (st : CatalogState) (schema : String) :
    create_schema location role_arn (create_schema location role_arn st schema)
        schema = create_schema location role_arn st schema ∧
    (check_schema_exists (CatalogResp.ok (st.databases.map Prod.fst)) schema
        = some true → create_schema location role_arn st schema = st) := by
  constructor
  · by_cases hmem : schema ∈ st.databases.map Prod.fst
    · have h1 : create_schema location role_arn st schema = st := by
        simp [create_schema, check_schema_exists, hmem]
      rw [h1, h1]
    · have h1 : create_schema location role_arn st schema =
          { databases :=
              st.databases ++ [(schema, location ++ "/" ++ schema ++ "/")]
            grants := st.grants ++ grant_entries role_arn schema } := by
        simp [create_schema, check_schema_exists, hmem]
      rw [h1]
      have hmem2 : schema ∈
          (st.databases ++ [(schema, location ++ "/" ++ schema ++ "/")]).map
            Prod.fst := by
        simp
      simp [create_schema, check_schema_exists, hmem2]
  · intro h
    simp [create_schema, h]

/-- Witness for C2: a catalog already holding schema "analytics" is left
untouched by `create_schema`, and a second call equals the first. -/
theorem create_schema_idempotent_witness :
    (check_schema_exists
        (CatalogResp.ok ((CatalogState.mk [("analytics", "s3root/analytics/")]
          []).databases.map Prod.fst)) "analytics" = some true) ∧
    create_schema "s3root" "roleA"
        (CatalogState.mk [("analytics", "s3root/analytics/")] []) "analytics"
      = CatalogState.mk [("analytics", "s3root/analytics/")] [] :=
  ⟨by decide,
   (create_schema_idempotent "s3root" "roleA"
      (CatalogState.mk [("analytics", "s3root/analytics/")] []) "analytics").2
      (by decide)⟩

/-- Counterexample for C8: on a catalog transport error the listing operation
does not return an empty list of the expected type, and the existence check
does not return `False` of the expected type — both return Python `None`. -/
theorem catalog_error_not_typed_empty :
    list_relations_without_caching "analytics"
        (CatalogResp.err "ServiceUnavailable") ≠ some [] ∧
    check_schema_exists (CatalogResp.err "ServiceUnavailable") "analytics"
        ≠ some false := by
  constructor
  · intro h
    simp [list_relations_without_caching] at h
  · intro h
    simp [check_schema_exists] at h

/-- C8 as amended: on a catalog transport/service error the listing and
existence-check operations log the error and return Python `None` (`none`) —
a falsy null result — to the caller, instead of raising; the error path never
produces a successful (`some`) payload. -/
theorem catalog_error_returns_none (schema e : String) :
    list_relations_without_caching schema (CatalogResp.err e) = none ∧
    check_schema_exists (CatalogResp.err e) schema = none := by
  exact ⟨rfl, rfl⟩

/-- A structured statement of the generated Spark scripts.  Each constructor
mirrors one statement the Python code concatenates into the submitted script
text. -/
inductive SparkStmt where
  | createOrReplaceTempView (viewName : String)
  | insertInto (table : String)
  | createOrReplaceTable (table : String)
  | mergeInto (table : String) (onCond : String)
  | createTable (table : String) (location : String)
  | hudiSave (mode : String) (path : String)
  | refreshTable (table : String)
  | selectLimit1 (table : String)
deriving DecidableEq, Repr

/-- `GlueAdapter.set_iceberg_merge_key` (`impl.py`, lines 242-245): the ON
condition of the MERGE statement, an AND of per-field equalities between the
target alias `t` and the source alias `s`. -/
def set_iceberg_merge_key (merge_key : List String) : String :=
  String.intercalate " AND "
    (merge_key.map (fun field => "t." ++ field ++ " = s." ++ field))

/-- The `glue_catalog.<schema>.<name>` qualified table name used by every
iceberg statement builder. -/
def glue_qualified (schema name : String) : String :=
  "glue_catalog." ++ schema ++ "." ++ name

/-- Location resolution in `iceberg_write` (`impl.py`, lines 763-766): the
sentinel string "empty" selects the default `<root>/<schema>/<name>` location,
anything else is the custom location, used verbatim. -/
def resolve_location (cred_location schema name custom_location : String) :
    String :=
  if custom_location = "empty" then
    cred_location ++ "/" ++ schema ++ "/" ++ name
  else custom_location

/-- The core statement selected by `iceberg_write` (`impl.py`, lines
792-804): when the table exists the declared mode picks insert /
create-or-replace / merge, any other mode leaves `core_code` unbound (a
NameError before anything is submitted, embedded as `none`); when the table
does not exist the create-table statement is selected regardless of mode. -/
def iceberg_core_stmt (schema name : String) (isTableExists : Bool)
    (write_mode : String) (primary_key : List String) (location : String) :
    Option SparkStmt :=
  if isTableExists then
    if write_mode = "append" then
      some (SparkStmt.insertInto (glue_qualified schema name))
    else if write_mode = "insert_overwrite" then
      some (SparkStmt.createOrReplaceTable (glue_qualified schema name))
    else if write_mode = "merge" then
      some (SparkStmt.mergeInto (glue_qualified schema name)
        (set_iceberg_merge_key primary_key))
    else none
  else
    some (SparkStmt.createTable (glue_qualified schema name) location)

/-- The statement sequence the `iceberg_write` script submits, as a function
of the source row count: the temp view is always registered, the core write
runs only under `if outputDf.count() > 0:`, and the REFRESH TABLE plus probe
SELECT of the footer are unconditional (`impl.py`, lines 772-809). -/
def iceberg_executed_stmts (rowCount : Nat) (schema name : String)
    (isTableExists : Bool) (write_mode : String) (primary_key : List String)
    (location : String) : Option (List SparkStmt) :=
  (iceberg_core_stmt schema name isTableExists write_mode primary_key
      location).map
    (fun core =>
      [SparkStmt.createOrReplaceTempView ("tmp_" ++ name)] ++
      (if 0 < rowCount then [core] else []) ++
      [SparkStmt.refreshTable (glue_qualified schema name),
       SparkStmt.selectLimit1 (glue_qualified schema name)])

/-- A statement mutates table data exactly when it is one of the write
statements; temp-view registration, catalog refresh and the probe select do
not. -/
def isDataMutation : SparkStmt → Bool
  | .insertInto _ => true
  | .createOrReplaceTable _ => true
  | .mergeInto _ _ => true
  | .createTable _ _ => true
  | .hudiSave _ _ => true
  | _ => false

/-- The write mode and Hudi operation chosen inside `hudi_merge_table`
(`impl.py`, lines 648-661). -/
structure HudiOperationConfig where
  write_mode : String
  operation : String
deriving DecidableEq, Repr

/-- `hudi_merge_table` chooses its operation solely from table existence:
an existing table gets an Append-mode upsert, an absent one an
Overwrite-mode bulk_insert.  The function — like the Python method — has no
write-mode parameter. -/
def hudi_operation_config (isTableExists : Bool) : HudiOperationConfig :=
  if isTableExists then
    { write_mode := "Append", operation := "upsert" }
  else
    { write_mode := "Overwrite", operation := "bulk_insert" }

/-- `GlueAdapter.hudi_write` (`impl.py`, lines 604-608): the save statement
writing `outputDf` at the default or custom path in the given mode. -/
def hudi_write (write_mode cred_location schema name custom_location :
    String) : SparkStmt :=
  if custom_location = "empty" then
    SparkStmt.hudiSave write_mode
      (cred_location ++ "/" ++ schema ++ "/" ++ name ++ "/")
  else
    SparkStmt.hudiSave write_mode (custom_location ++ "/")

/-- The statement sequence the `hudi_merge_table` script submits: the save
runs only under `if outputDf.count() > 0:`, the REFRESH TABLE and probe
SELECT are unconditional (`impl.py`, lines 665-680). -/
def hudi_executed_stmts (rowCount : Nat) (schema name : String)
    (isTableExists : Bool) (cred_location custom_location : String) :
    List SparkStmt :=
  (if 0 < rowCount then
    [hudi_write (hudi_operation_config isTableExists).write_mode
      cred_location schema name custom_location]
   else []) ++
  [SparkStmt.refreshTable (schema ++ "." ++ name),
   SparkStmt.selectLimit1 (schema ++ "." ++ name)]

/-- Outcome of the one `cursor.execute(code)` call: success, a
`DatabaseException` from the remote engine, or any other exception. -/
inductive PyOutcome where
  | ok
  | dbError (msg : String)
  | otherError (msg : String)

/-- What the caller of a write method observes: normal return, a re-raised
`DatabaseException` carrying the action tag, or a logged-and-swallowed
exception. -/
inductive CallResult where
  | success
  | raisedDatabaseException (tag : String)
  | loggedOnly (msg : String)
deriving DecidableEq, Repr

/-- The shared `try/except` shape wrapping `cursor.execute` in the write
methods: a `DatabaseException` is re-raised as `DatabaseException(msg=tag)`,
any other exception is logged only. -/
def write_except_handler (tag : String) : PyOutcome → CallResult
  | .ok => .success
  | .dbError _ => .raisedDatabaseException tag
  | .otherError m => .loggedOnly m

/-- The result of `iceberg_write`'s single execute call (`impl.py`, lines
814-819). -/
def iceberg_write_result (o : PyOutcome) : CallResult :=
  write_except_handler "GlueIcebergWriteTableFailed" o

/-- The result of `hudi_merge_table`'s single execute call (`impl.py`, lines
686-691). -/
def hudi_merge_table_result (o : PyOutcome) : CallResult :=
  write_except_handler "GlueHudiMergeTableFailed" o

/-- `iceberg_write` submits its script exactly once — there is a single
`cursor.execute(code)` and no retry loop. -/
def iceberg_write_execute_calls : Nat := 1

/-- `hudi_merge_table` submits its script exactly once — a single
`cursor.execute(code)` and no retry loop. -/
def hudi_merge_table_execute_calls : Nat := 1

/-- C1: when the target relation does not exist, `iceberg_write` selects the
CREATE path — a create-table statement at the resolved-or-custom location —
whatever write mode the intent declared. -/
theorem absent_table_takes_create_path (schema name write_mode : String)
    (primary_key : List String) (cred_location custom_location : String) :
    iceberg_core_stmt schema name false write_mode primary_key
        (resolve_location cred_location schema name custom_location)
      = some (SparkStmt.createTable (glue_qualified schema name)
          (resolve_location cred_location schema name custom_location)) := by
  simp [iceberg_core_stmt]

/-- C3: on a zero-row source, neither the iceberg nor the hudi script runs
any data-mutating statement, yet both still run the catalog-refresh
statement against the target table. -/
theorem empty_input_no_mutation (rowCount : Nat) (h : rowCount = 0)
    (schema name : String) (isTableExists : Bool) (write_mode : String)
    (primary_key : List String) (location cred_location custom_location :
    String) :
    (∀ stmts, iceberg_executed_stmts rowCount schema name isTableExists
        write_mode primary_key location = some stmts →
      (∀ s ∈ stmts, isDataMutation s = false) ∧
      SparkStmt.refreshTable (glue_qualified schema name) ∈ stmts) ∧
    ((∀ s ∈ hudi_executed_stmts rowCount schema name isTableExists
        cred_location custom_location, isDataMutation s = false) ∧
      SparkStmt.refreshTable (schema ++ "." ++ name) ∈
        hudi_executed_stmts rowCount schema name isTableExists cred_location
          custom_location) := by
  subst h
  constructor
  · intro stmts hstmts
    rcases Option.map_eq_some'.mp hstmts with ⟨core, _, rfl⟩
    refine ⟨?_, by simp⟩
    intro s hs
    simp at hs
    rcases hs with rfl | rfl | rfl <;> rfl
  · constructor
    · intro s hs
      simp [hudi_executed_stmts] at hs
      rcases hs with rfl | rfl <;> rfl
    · simp [hudi_executed_stmts]

/-- Witness for C3: a concrete zero-row write against an existing table in
append mode mutates nothing and still refreshes. -/
theorem empty_input_no_mutation_witness :
    ((0 : Nat) = 0) ∧
    ((∀ stmts, iceberg_executed_stmts 0 "analytics" "events" true "append"
        ["id"] "s3root/analytics/events" = some stmts →
      (∀ s ∈ stmts, isDataMutation s = false) ∧
      SparkStmt.refreshTable (glue_qualified "analytics" "events") ∈ stmts) ∧
    ((∀ s ∈ hudi_executed_stmts 0 "analytics" "events" true "s3root" "empty",
        isDataMutation s = false) ∧
      SparkStmt.refreshTable ("analytics" ++ "." ++ "events") ∈
        hudi_executed_stmts 0 "analytics" "events" true "s3root" "empty")) :=
  ⟨rfl, empty_input_no_mutation 0 rfl "analytics" "events" true "append"
    ["id"] "s3root/analytics/events" "s3root" "empty"⟩

/-- C6: a remote `DatabaseException` from the engine during a write is
re-raised to the caller as a `DatabaseException` carrying the stable action
tag of the attempted write, never reported as success, and each write method
submits its script exactly once (no retry in this layer). -/
theorem write_failure_propagated (m : String) :
    iceberg_write_result (PyOutcome.dbError m)
        = CallResult.raisedDatabaseException "GlueIcebergWriteTableFailed" ∧
    hudi_merge_table_result (PyOutcome.dbError m)
        = CallResult.raisedDatabaseException "GlueHudiMergeTableFailed" ∧
    iceberg_write_result (PyOutcome.dbError m) ≠ CallResult.success ∧
    hudi_merge_table_result (PyOutcome.dbError m) ≠ CallResult.success ∧
    iceberg_write_execute_calls = 1 ∧
    hudi_merge_table_execute_calls = 1 := by
  refine ⟨rfl, rfl, ?_, ?_, rfl, rfl⟩ <;> intro h <;>
    simp [iceberg_write_result, hudi_merge_table_result,
      write_except_handler] at h

/-- C10: `hudi_merge_table` has no write-mode input; the operation is a
function of table existence alone — Append-mode upsert when the table
exists, Overwrite-mode bulk_insert when it does not — and the save statement
the script runs (on nonempty input) carries exactly that existence-derived
mode. -/
theorem hudi_operation_determined_by_existence :
    hudi_operation_config true
        = { write_mode := "Append", operation := "upsert" } ∧
    hudi_operation_config false
        = { write_mode := "Overwrite", operation := "bulk_insert" } ∧
    (∀ rowCount schema name isTableExists cred custom, 0 < rowCount →
      hudi_write (hudi_operation_config isTableExists).write_mode cred
          schema name custom
        ∈ hudi_executed_stmts rowCount schema name isTableExists cred
            custom) := by
  refine ⟨rfl, rfl, ?_⟩
  intro rowCount schema name isTableExists cred custom hpos
  simp [hudi_executed_stmts, hpos]

/-- Witness for C10: with one source row the script of an existing table
contains the Append-mode save. -/
theorem hudi_operation_determined_by_existence_witness :
    (0 < 1) ∧
    hudi_write (hudi_operation_config true).write_mode "s3root" "analytics"
        "events" "empty"
      ∈ hudi_executed_stmts 1 "analytics" "events" true "s3root" "empty" :=
  ⟨by decide,
   (hudi_operation_determined_by_existence).2.2 1 "analytics" "events" true
     "s3root" "empty" (by decide)⟩

/-- The fields of a Glue `get_table` response that `get_table_type` reads:
the raw `TableType` string and the `Parameters["table_type"]` property, each
possibly absent. -/
structure GlueTableDesc where
  tableType : Option String
  param_table_type : Option String

/-- Python `str.lower()` on the ASCII property values involved: lowercase
every character. -/
def py_lower (s : String) : String := String.mk (s.data.map Char.toLower)

/-- `GlueAdapter.get_table_type` (`impl.py`, lines 581-602): when the table
is absent the `EntityNotFoundException` is logged, the dangling `response`
name then raises inside the second `try`, and the broad handler returns
Python `None` (`none`).  Otherwise the raw type is normalized through
`relation_type_map` (with dict default "Table") and a `table_type` property
equal to "iceberg" (case-insensitively) overrides it with `iceberg_table`;
a `None` normalized type would fail string concatenation in the debug log
and also come back as `none`. -/
def get_table_type (response : Option GlueTableDesc) : Option String :=
  match response with
  | none => none
  | some t =>
      if py_lower (t.param_table_type.getD "") = "iceberg" then
        some "iceberg_table"
      else
        relation_type_map_get (t.tableType.getD "Table")

/-- C9: the transactional-format marker in the table properties wins over
the raw catalog type — any descriptor whose `table_type` property lowers to
"iceberg" is typed `iceberg_table` — and an absent table yields the
non-fatal `none` ("does not exist") instead of an error. -/
theorem get_table_type_marker_wins (t : GlueTableDesc)
    (h : py_lower (t.param_table_type.getD "") = "iceberg") :
    get_table_type (some t) = some "iceberg_table" ∧
    get_table_type none = none := by
  constructor
  · simp [get_table_type, h]
  · rfl

/-- Witness for C9: a descriptor marked "Iceberg" over a raw EXTERNAL_TABLE
type resolves to `iceberg_table`. -/
theorem get_table_type_marker_wins_witness :
    py_lower ((GlueTableDesc.mk (some "EXTERNAL_TABLE")
        (some "Iceberg")).param_table_type.getD "") = "iceberg" ∧
    (get_table_type (some (GlueTableDesc.mk (some "EXTERNAL_TABLE")
        (some "Iceberg"))) = some "iceberg_table" ∧
      get_table_type none = none) :=
  ⟨by decide,
   get_table_type_marker_wins
     (GlueTableDesc.mk (some "EXTERNAL_TABLE") (some "Iceberg")) (by decide)⟩

/-- Maximum of two timestamps, written out so that every proof below is a
plain if-split. -/
def nat_max (a b : Nat) : Nat := if a ≤ b then b else a

/-- The most recent committed snapshot timestamp: the script selects
`committed_at` from the snapshots metadata table ordered descending and
takes the first row, i.e. the maximum; an empty history makes
`history_df.first()` return Python `None` and the attribute access fail
(`none` here). -/
def last_committed_at : List Nat → Option Nat
  | [] => none
  | t :: ts => some (ts.foldl nat_max t)

/-- Modelled from the spec: the external `expire_snapshots(table, timestamp)`
procedure invoked by the generated script expires exactly the snapshots
committed strictly before the given timestamp; the procedure itself lives in
the Iceberg runtime, outside this repository. -/
def expire_snapshots (snaps : List Nat) (ts : Nat) : List Nat :=
  snaps.filter (fun s => ! decide (s < ts))

/-- `GlueAdapter.iceberg_expire_snapshots` (`impl.py`, lines 821-849):
determine the latest committed timestamp and expire everything strictly
older than it. -/
def iceberg_expire_snapshots (snaps : List Nat) : Option (List Nat) :=
  (last_committed_at snaps).map (fun ts => expire_snapshots snaps ts)

/-- The seed of `List.foldl nat_max` is a lower bound of the result. -/
theorem le_foldl_max (ts : List Nat) (t : Nat) : t ≤ ts.foldl nat_max t := by
  induction ts generalizing t with
  | nil => exact Nat.le_refl t
  | cons a ts ih =>
      have hstep : t ≤ nat_max t a := by
        unfold nat_max
        split <;> omega
      exact Nat.le_trans hstep (ih (nat_max t a))

/-- Every list element is bounded by the `List.foldl nat_max` result. -/
theorem foldl_max_ub (ts : List Nat) (t x : Nat) (hx : x ∈ ts) :
    x ≤ ts.foldl nat_max t := by
  induction ts generalizing t with
  | nil => cases hx
  | cons a ts ih =>
      rcases List.mem_cons.mp hx with rfl | h
      · have hstep : x ≤ nat_max t x := by
          unfold nat_max
          split <;> omega
        exact Nat.le_trans hstep (le_foldl_max ts _)
      · exact ih (nat_max t a) h

/-- The `List.foldl nat_max` result is the seed or one of the elements. -/
theorem foldl_max_mem (ts : List Nat) (t : Nat) :
    ts.foldl nat_max t = t ∨ ts.foldl nat_max t ∈ ts := by
  induction ts generalizing t with
  | nil => exact Or.inl rfl
  | cons a ts ih =>
      rcases ih (nat_max t a) with h | h
      · by_cases hta : t ≤ a
        · right
          have hmax : nat_max t a = a := by
            unfold nat_max
            exact if_pos hta
          rw [List.foldl_cons, h, hmax]
          exact List.mem_cons_self a ts
        · left
          have hmax : nat_max t a = t := by
            unfold nat_max
            exact if_neg hta
          rw [List.foldl_cons, h, hmax]
      · right
        rw [List.foldl_cons]
        exact List.mem_cons_of_mem a h

/-- C5: for a table with at least one snapshot, the expiration operation
computes the most recent committed timestamp `m` (a member of and an upper
bound of the history), expires exactly the snapshots strictly older than
`m` — so `m` itself survives — and leaves a single-snapshot table
unchanged. -/
theorem expire_snapshots_retains_latest (snaps : List Nat)
    (h : snaps ≠ []) :
    ∃ m, last_committed_at snaps = some m ∧ m ∈ snaps ∧
      (∀ x ∈ snaps, x ≤ m) ∧
      iceberg_expire_snapshots snaps = some (expire_snapshots snaps m) ∧
      m ∈ expire_snapshots snaps m ∧
      (∀ x, x ∈ expire_snapshots snaps m ↔ x ∈ snaps ∧ ¬ x < m) ∧
      (∀ a, snaps = [a] → expire_snapshots snaps m = [a]) := by
  match snaps, h with
  | t :: ts, _ =>
    refine ⟨ts.foldl nat_max t, rfl, ?_, ?_, rfl, ?_, ?_, ?_⟩
    · rcases foldl_max_mem ts t with hm | hm
      · rw [hm]
        exact List.mem_cons_self t ts
      · exact List.mem_cons_of_mem t hm
    · intro x hx
      rcases List.mem_cons.mp hx with rfl | hmem
      · exact le_foldl_max ts x
      · exact foldl_max_ub ts t x hmem
    · have hmem : ts.foldl nat_max t ∈ t :: ts := by
        rcases foldl_max_mem ts t with hm | hm
        · rw [hm]
          exact List.mem_cons_self t ts
        · exact List.mem_cons_of_mem t hm
      exact List.mem_filter.mpr ⟨hmem, by simp⟩
    · intro x
      simp [expire_snapshots, List.mem_filter]
    · intro a ha
      rcases List.cons_eq_cons.mp ha with ⟨rfl, rfl⟩
      simp [expire_snapshots]

/-- Witness for C5: the three-snapshot history keeps exactly its most recent
snapshot. -/
theorem expire_snapshots_retains_latest_witness :
    ([3, 7, 5] : List Nat) ≠ [] ∧
    (∃ m, last_committed_at [3, 7, 5] = some m ∧ m ∈ ([3, 7, 5] : List Nat) ∧
      (∀ x ∈ ([3, 7, 5] : List Nat), x ≤ m) ∧
      iceberg_expire_snapshots [3, 7, 5]
        = some (expire_snapshots [3, 7, 5] m) ∧
      m ∈ expire_snapshots [3, 7, 5] m ∧
      (∀ x, x ∈ expire_snapshots [3, 7, 5] m ↔
        x ∈ ([3, 7, 5] : List Nat) ∧ ¬ x < m) ∧
      (∀ a, ([3, 7, 5] : List Nat) = [a] →
        expire_snapshots [3, 7, 5] m = [a])) :=
  ⟨by decide, expire_snapshots_retains_latest [3, 7, 5] (by decide)⟩

/-- A table row for the merge model: the declared primary key (the value of
the key tuple) and the entire remaining row content.  Keeping the non-key
columns as one atomic payload makes "full row replacement" visible: a
replaced row carries the incoming payload wholesale, never a mix. -/
structure Row where
  key : Nat
  payload : String
deriving DecidableEq, Repr

/-- Modelled from the spec: the engine-side semantics of the statement built
by `iceberg_upsert` — `MERGE INTO t USING s ON <key equality> WHEN MATCHED
THEN UPDATE SET * WHEN NOT MATCHED THEN INSERT *`.  Target rows with a
key-matching source row are replaced by that source row in full, the rest
are kept, and source rows matching no target key are inserted.  The MERGE
execution itself happens in the external Spark/Iceberg engine; only the
statement text comes from this repository. -/
def merge_full_row (target source : List Row) : List Row :=
  target.map (fun t =>
    match source.find? (fun s => s.key == t.key) with
    | some s => s
    | none => t) ++
  source.filter (fun s => ! target.any (fun t => t.key == s.key))

/-- With pairwise-distinct source keys, the key-lookup in the source finds
exactly the source row carrying that key. -/
theorem find?_key_of_nodup (source : List Row) (r : Row) (k : Nat)
    (hnd : (source.map Row.key).Nodup) (hr : r ∈ source) (hk : r.key = k) :
    source.find? (fun s => s.key == k) = some r := by
  induction source with
  | nil => cases hr
  | cons h t ih =>
      rw [List.map_cons, List.nodup_cons] at hnd
      by_cases hh : h.key = k
      · rw [List.find?_cons_of_pos _ (by simp [hh])]
        rcases List.mem_cons.mp hr with rfl | hmem
        · rfl
        · exfalso
          apply hnd.1
          rw [hh, ← hk]
          exact List.mem_map_of_mem Row.key hmem
      · rw [List.find?_cons_of_neg _ (by simp [hh])]
        rcases List.mem_cons.mp hr with rfl | hmem
        · exact absurd hk hh
        · exact ih hnd.2 hmem

/-- C4: under a merge keyed on the declared primary key(s) with distinct
source keys, a result row is exactly one of: an incoming row that fully
replaced the key-matching existing row, an existing row with no incoming
key match (kept), or an incoming row with no existing key match (inserted).
The spec's concrete scenario holds, and the ON condition built for key
`id` is the full-row merge key `t.id = s.id`. -/
theorem iceberg_upsert_merge_semantics (target source : List Row)
    (hnd : (source.map Row.key).Nodup) (r : Row) :
    (r ∈ merge_full_row target source ↔
      (r ∈ source ∧ ∃ t ∈ target, t.key = r.key) ∨
      (r ∈ target ∧ ∀ s ∈ source, s.key ≠ r.key) ∨
      (r ∈ source ∧ ∀ t ∈ target, t.key ≠ r.key)) ∧
    merge_full_row [Row.mk 1 "a"] [Row.mk 1 "b", Row.mk 2 "c"]
      = [Row.mk 1 "b", Row.mk 2 "c"] ∧
    set_iceberg_merge_key ["id"] = "t.id = s.id" := by
  refine ⟨?_, by decide, rfl⟩
  constructor
  · intro hmem
    rcases List.mem_append.mp hmem with hmap | hfil
    · rcases List.mem_map.mp hmap with ⟨t, ht, hft⟩
      cases hfind : source.find? (fun s => s.key == t.key) with
      | none =>
          rw [hfind] at hft
          simp only [] at hft
          right
          left
          refine ⟨hft ▸ ht, ?_⟩
          intro s hs
          have hne := List.find?_eq_none.mp hfind s hs
          simp at hne
          rw [← hft]
          exact hne
      | some s =>
          rw [hfind] at hft
          simp only [] at hft
          left
          have hsrc : s ∈ source := List.mem_of_find?_eq_some hfind
          have hkey : s.key = t.key := by
            have hp := List.find?_some hfind
            simpa using hp
          exact ⟨hft ▸ hsrc, t, ht, by rw [← hft, hkey]⟩
    · right
      right
      have h1 := (List.mem_filter.mp hfil).1
      have h2 := (List.mem_filter.mp hfil).2
      refine ⟨h1, ?_⟩
      intro t ht
      have hany : target.any (fun t => t.key == r.key) = false := by
        cases hv : target.any (fun t => t.key == r.key)
        · rfl
        · rw [hv] at h2
          cases h2
      have := List.any_eq_false.mp hany t ht
      simpa using this
  · intro hcase
    rcases hcase with ⟨hrs, t, ht, htk⟩ | ⟨hrt, hno⟩ | ⟨hrs, hno⟩
    · apply List.mem_append.mpr
      left
      apply List.mem_map.mpr
      refine ⟨t, ht, ?_⟩
      rw [find?_key_of_nodup source r t.key hnd hrs htk.symm]
    · apply List.mem_append.mpr
      left
      apply List.mem_map.mpr
      refine ⟨r, hrt, ?_⟩
      have hfind : source.find? (fun s => s.key == r.key) = none := by
        apply List.find?_eq_none.mpr
        intro s hs
        simp [hno s hs]
      rw [hfind]
    · apply List.mem_append.mpr
      right
      apply List.mem_filter.mpr
      refine ⟨hrs, ?_⟩
      have hany : target.any (fun t => t.key == r.key) = false := by
        apply List.any_eq_false.mpr
        intro t ht
        simp [hno t ht]
      rw [hany]
      rfl

/-- Witness for C4: in the spec's scenario the incoming row with key 1 is in
the merge result, having fully replaced the old row with key 1. -/
theorem iceberg_upsert_merge_semantics_witness :
    (([Row.mk 1 "b", Row.mk 2 "c"].map Row.key).Nodup) ∧
    Row.mk 1 "b" ∈ merge_full_row [Row.mk 1 "a"]
      [Row.mk 1 "b", Row.mk 2 "c"] :=
  ⟨by decide,
   ((iceberg_upsert_merge_semantics [Row.mk 1 "a"]
      [Row.mk 1 "b", Row.mk 2 "c"] (by decide) (Row.mk 1 "b")).1).mpr
     (Or.inl ⟨by decide, Row.mk 1 "a", by decide, rfl⟩)⟩

end DbtGlue
